import Mathlib

/-!
Verification development for the beets-youtube repository (two beets
autotagger plugins: `beetsplug/youtube.py` and `beetsplug/jiosaavn.py`).

The Python adapters are shallowly embedded: remote clients, image
validation and configuration become explicit function parameters,
exceptions become `Except PyErr`, and Python `None` becomes `Option`.
Line numbers in comments refer to the two source files.
-/

/-- Python exception classes that the embedded code can raise. -/
inductive PyErr where
  | nameError        -- NameError / UnboundLocalError (local read before assignment)
  | keyError
  | indexError
  | valueError
  | typeError
  | attributeError
  | remoteError      -- any exception raised inside a remote-client call
  deriving Repr, DecidableEq

/-- A Python value passed to `get_yt_views`: either a string id or the
builtin function `id` (youtube.py line 259 passes the bare name `id`). -/
inductive PyVal where
  | str (s : String)
  | builtinId
  deriving Repr, DecidableEq

/-- Python `sub in s` (substring containment). -/
def containsSub (pat : List Char) : List Char → Bool
  | [] => pat.isEmpty
  | c :: cs => pat.isPrefixOf (c :: cs) || containsSub pat cs

/-- Worker for `replaceSub`, structurally recursive on a fuel argument so
that concrete inputs reduce inside the kernel; every step consumes at
least one character, so fuel equal to the input length never runs out
(the `0, l` arm is unreachable from `replaceSub`). -/
def replaceSubGo (p0 : Char) (ps rep : List Char) : Nat → List Char → List Char
  | _, [] => []
  | 0, l => l
  | fuel + 1, c :: cs =>
    if (p0 :: ps).isPrefixOf (c :: cs) then
      rep ++ replaceSubGo p0 ps rep fuel ((c :: cs).drop (ps.length + 1))
    else
      c :: replaceSubGo p0 ps rep fuel cs

/-- Python `s.replace(pat, rep)` for a nonempty pattern `p0 :: ps`:
replaces every occurrence, scanning left to right. -/
def replaceSub (p0 : Char) (ps rep l : List Char) : List Char :=
  replaceSubGo p0 ps rep l.length l

/-- Worker for `splitOnSub`; fuel as in `replaceSubGo`. -/
def splitOnSubGo (p0 : Char) (ps : List Char) : Nat → List Char → List (List Char)
  | _, [] => [[]]
  | 0, l => [l]
  | fuel + 1, c :: cs =>
    if (p0 :: ps).isPrefixOf (c :: cs) then
      [] :: splitOnSubGo p0 ps fuel ((c :: cs).drop (ps.length + 1))
    else
      match splitOnSubGo p0 ps fuel cs with
      | [] => [[c]]
      | q :: qs => (c :: q) :: qs

/-- Python `s.split(sep)` for a nonempty separator `p0 :: ps`. -/
def splitOnSub (p0 : Char) (ps l : List Char) : List (List Char) :=
  splitOnSubGo p0 ps l.length l

/-- `"&quot;"` replaced by a double quote, i.e. the Python
`.replace("&quot;", "\"")` applied throughout both adapters. -/
def deQuot (s : String) : String := ⟨replaceSub '&' "quot;".data "\"".data s.data⟩

/-- jiosaavn.py line 141: `item["image"].replace("150x150", "500x500")`. -/
def replace150 (s : String) : String := ⟨replaceSub '1' "50x150".data "500x500".data s.data⟩

/-- Python `\w` with `re.UNICODE`, approximated: ASCII alphanumerics,
underscore, and every non-ASCII character counts as a word character. -/
def isWordChar (c : Char) : Bool := c.isAlphanum || c = '_' || decide (128 ≤ c.toNat)

/-- Python `\s` (ASCII part). -/
def isSpaceChar (c : Char) : Bool :=
  c = ' ' || c = '\t' || c = '\n' || c = '\r' || c = '\x0b' || c = '\x0c'

/-- Worker for the first substitution: `prevNonWord` records whether the
previous character belonged to a (still open) non-word run, so that each
maximal run emits exactly one space at its first character. -/
def collapseGo (prevNonWord : Bool) : List Char → List Char
  | [] => []
  | c :: cs =>
    if isWordChar c then c :: collapseGo false cs
    else if prevNonWord then collapseGo true cs
    else ' ' :: collapseGo true cs

/-- First substitution of `get_albums`/`get_tracks` (youtube.py line 145,
jiosaavn.py line 67): `re.sub(r'(?u)\W+', ' ', query)` — each maximal run
of non-word characters becomes a single space. -/
def collapseNonWord (l : List Char) : List Char := collapseGo false l

/-- Case-insensitive literal prefix match: `p` is given lowercase; on
success returns the input after the matched prefix. -/
def ciPrefix : List Char → List Char → Option (List Char)
  | [], l => some l
  | _ :: _, [] => none
  | p :: ps, c :: cs => if c.toLower = p then ciPrefix ps cs else none

/-- Keyword part of `(?i)(CD|disc)`: `CD` is tried first; the two
alternatives start with different letters so at most one matches. -/
def kwTail (l : List Char) : Option (List Char) :=
  match ciPrefix ['c', 'd'] l with
  | some r => some r
  | none => ciPrefix ['d', 'i', 's', 'c'] l

/-- `\s*\d+` part: both quantifiers are greedy, and since spaces and
digits are disjoint no backtracking can occur. -/
def digitsTail (r : List Char) : Option (List Char) :=
  match r.dropWhile isSpaceChar with
  | [] => none
  | d :: rest => if d.isDigit then some (rest.dropWhile Char.isDigit) else none

/-- Match of `(?i)(CD|disc)\s*\d+` at the head of `l`; on success returns
the input after the match. -/
def markerTail (l : List Char) : Option (List Char) :=
  match kwTail l with
  | none => none
  | some r => digitsTail r

theorem ciPrefix_length : ∀ (p l r : List Char), ciPrefix p l = some r → r.length + p.length = l.length
  | [], l, r, h => by
      simp only [ciPrefix, Option.some.injEq] at h
      subst h
      simp
  | _ :: _, [], r, h => by
      simp only [ciPrefix] at h
      exact Option.noConfusion h
  | p :: ps, c :: cs, r, h => by
      simp only [ciPrefix] at h
      by_cases hc : c.toLower = p
      · rw [if_pos hc] at h
        have := ciPrefix_length ps cs r h
        simp only [List.length_cons]
        omega
      · rw [if_neg hc] at h
        exact absurd h (by simp)

theorem kwTail_length {l r : List Char} (h : kwTail l = some r) : r.length + 2 ≤ l.length := by
  unfold kwTail at h
  cases hcd : ciPrefix ['c', 'd'] l with
  | some kwRest =>
      rw [hcd] at h
      simp only [Option.some.injEq] at h
      subst h
      have := ciPrefix_length _ _ _ hcd
      simp only [List.length_cons, List.length_nil] at this
      omega
  | none =>
      rw [hcd] at h
      have := ciPrefix_length _ _ _ h
      simp only [List.length_cons, List.length_nil] at this
      omega

theorem digitsTail_length {r t : List Char} (h : digitsTail r = some t) : t.length < r.length := by
  unfold digitsTail at h
  split at h
  · exact Option.noConfusion h
  · rename_i d rest hdw
    split at h
    · simp only [Option.some.injEq] at h
      subst h
      have h1 : (r.dropWhile isSpaceChar).length ≤ r.length :=
        (List.dropWhile_sublist _).length_le
      rw [hdw] at h1
      have h2 := (List.dropWhile_sublist (l := rest) Char.isDigit).length_le
      simp only [List.length_cons] at h1
      omega
    · exact Option.noConfusion h

theorem markerTail_length {l r : List Char} (h : markerTail l = some r) : r.length < l.length := by
  unfold markerTail at h
  cases hkw : kwTail l with
  | none => rw [hkw] at h; exact absurd h (by simp)
  | some kw =>
      rw [hkw] at h
      have h1 := kwTail_length hkw
      have h2 := digitsTail_length h
      omega

/-- Scanner for the second substitution
`re.sub(r'(?i)\b(CD|disc)\s*\d+', '', query)` (youtube.py line 148,
jiosaavn.py line 70).  `prevWord` records whether the previous character
was a word character; the pattern starts with a word character so `\b`
holds exactly when `prevWord` is false.  After a removed match the last
consumed character is a digit, hence `prevWord` becomes true.
Structurally recursive on fuel; `markerTail_length` shows every step
consumes at least one character, so fuel equal to the input length never
runs out (the `0, _, l` arm is unreachable from `removeDiscMarkers`). -/
def stripGo : Nat → Bool → List Char → List Char
  | _, _, [] => []
  | 0, _, l => l
  | fuel + 1, prevWord, c :: cs =>
    if prevWord then c :: stripGo fuel (isWordChar c) cs
    else
      match markerTail (c :: cs) with
      | some r => stripGo fuel true r
      | none => c :: stripGo fuel (isWordChar c) cs

/-- The second substitution: remove every `(?i)\b(CD|disc)\s*\d+` match. -/
def removeDiscMarkers (l : List Char) : List Char := stripGo l.length false l

/-- The full query normalization shared by `get_albums` and `get_tracks`
in both adapters: collapse non-word runs to single spaces, then strip
disc/medium markers. -/
def normalizeQueryL (l : List Char) : List Char := removeDiscMarkers (collapseNonWord l)

def normalizeQuery (s : String) : String := ⟨normalizeQueryL s.data⟩

/-! ## Host record types (beets `TrackInfo` / `AlbumInfo`, the fields the
two adapters touch; unset beets fields default to `none`). -/

structure TrackInfo where
  title : String
  track_id : String
  artist : String
  album : String
  artist_id : String := ""
  length : Nat := 0
  index : Option Nat := none
  medium : Option Nat := none
  medium_total : Option Nat := none
  yt_views : Option Nat := none
  starring : Option String := none
  perma_url : String := ""
  data_source : String := ""
  deriving Repr, DecidableEq

structure AlbumInfo where
  album : String
  album_id : String
  artist : String
  artist_id : String
  tracks : List TrackInfo
  albumtype : String
  year : Nat := 0
  month : Option Nat := none
  day : Option Nat := none
  mediums : Option Nat := none
  data_source : String := ""
  cover_art_url : Option String := none
  label : Option String := none
  data_url : String := ""
  deriving Repr, DecidableEq

/-- Python `str.strip()` (ASCII whitespace). -/
def trimChars (l : List Char) : List Char :=
  ((l.dropWhile isSpaceChar).reverse.dropWhile isSpaceChar).reverse

def pyStrip (s : String) : String := ⟨trimChars s.data⟩

/-- Decimal parse of a digit string; `none` unless nonempty and all
digits. -/
def digitsToNat (l : List Char) : Option Nat :=
  if l ≠ [] ∧ l.all Char.isDigit then
    some (l.foldl (fun n c => n * 10 + (c.toNat - '0'.toNat)) 0)
  else none

/-- Python `int(s)` restricted to the nonnegative values occurring here
(durations, dates); `int` ignores surrounding whitespace and raises
`ValueError` on a non-numeric string. -/
def pyInt (s : String) : Except PyErr Nat :=
  match digitsToNat (trimChars s.data) with
  | some n => .ok n
  | none => .error .valueError

/-- `Except`-valued `max` over the elements of a Python `dict.keys()`
view: `ValueError` on an empty collection; comparing `None` with
anything (even `None`) raises `TypeError` in Python 3; a singleton is
returned without any comparison. -/
def pyMaxStep (a b : Option Nat) : Except PyErr (Option Nat) :=
  match a, b with
  | some x, some y => .ok (some (Nat.max x y))
  | _, _ => .error .typeError

def pyMaxFold : Option Nat → List (Option Nat) → Except PyErr (Option Nat)
  | acc, [] => .ok acc
  | acc, k :: ks =>
    match pyMaxStep acc k with
    | .error e => .error e
    | .ok m => pyMaxFold m ks

def pyMax : List (Option Nat) → Except PyErr (Option Nat)
  | [] => .error .valueError
  | k :: ks => pyMaxFold k ks

/-- Keys of the `medium_totals` defaultdict in first-insertion order
(the order Python `dict.keys()` iterates). -/
def mediumKeys (ts : List TrackInfo) : List (Option Nat) :=
  ts.foldl (fun ks t => if ks.contains t.medium then ks else ks ++ [t.medium]) []

/-- Final value of the `medium_totals` defaultdict after the counting
loop: the number of tracks whose `medium` equals `m`. -/
def mediumTotals (ts : List TrackInfo) (m : Option Nat) : Nat :=
  ts.countP (fun t => t.medium == m)

/-- jiosaavn.py lines 160-161: the second pass assigning each track's
`medium_total` from the completed `medium_totals` dict. -/
def assignMediumTotals (ts : List TrackInfo) : List TrackInfo :=
  ts.map (fun t => { t with medium_total := some (mediumTotals ts t.medium) })

/-- The shared per-track loop of both `get_album_info`s
(`for i, song in enumerate(songs, start=1): track = _get_track(song);
track.index = i; ...; tracks.append(track)`): map each song through the
adapter's `_get_track` and set the 1-based `index`.  An exception from
`_get_track` propagates. -/
def mapTracksFrom {σ : Type} (f : σ → Except PyErr TrackInfo) : Nat → List σ → Except PyErr (List TrackInfo)
  | _, [] => .ok []
  | i, s :: ss =>
    match f s with
    | .error e => .error e
    | .ok t =>
      match mapTracksFrom f (i + 1) ss with
      | .error e => .error e
      | .ok ts => .ok ({ t with index := some i } :: ts)

/-- Sequential `for`-loop accumulation with early exception propagation. -/
def exMapM {α β : Type} (f : α → Except PyErr β) : List α → Except PyErr (List β)
  | [] => .ok []
  | a :: as =>
    match f a with
    | .error e => .error e
    | .ok b =>
      match exMapM f as with
      | .error e => .error e
      | .ok bs => .ok (b :: bs)

/-! ## JioSaavn adapter (`beetsplug/jiosaavn.py`) -/

/-- A song object from the JioSaavn album/song JSON (fields read by
`_get_track` and `get_album_info`); `more_info_duration` models
`track_data['more_info']['duration']`. -/
structure JioSong where
  song : String
  id : String
  album : String
  duration : String
  more_info_duration : String := ""
  singers : String
  music : String
  music_id : String
  starring : String
  label : Option String := none
  perma_url : String
  deriving Repr, DecidableEq

structure JioAlbumItem where
  title : String
  albumid : String
  perma_url : String
  primary_artists_id : String
  primary_artists : String
  year : Nat
  image : String
  release_date : Option String
  songs : List JioSong
  deriving Repr, DecidableEq

structure JioHit where
  perma_url : String
  type : String
  deriving Repr, DecidableEq

structure JioSearchData where
  results : List JioHit
  deriving Repr, DecidableEq

structure JioSongResp where
  songs : List JioSong
  deriving Repr, DecidableEq

/-- The collaborators of the JioSaavn plugin: the `SaavnAPI` client
calls (any of which may raise) and the cover-art validator
`is_valid_image_url` (its network and decode failures are already
folded into the returned Bool, jiosaavn.py lines 232-238). -/
structure JioEnv where
  search_album : String → Except PyErr JioSearchData
  search_song : String → Except PyErr JioSearchData
  create_identifier : String → String → String
  get_album_details : String → Except PyErr JioAlbumItem
  get_song_details : String → Except PyErr JioSongResp
  validImage : String → Bool

/-- jiosaavn.py lines 181-210, `_get_track`. -/
def jioGetTrack (td : JioSong) : Except PyErr TrackInfo :=
  match (if td.duration ≠ "" then pyInt td.duration
         else if td.more_info_duration ≠ "" then pyInt td.more_info_duration
         else .error .nameError) with
  -- both duration strings falsy: the local `length` is never bound and
  -- `TrackInfo(length=length)` raises at line 204
  | .error e => .error e
  | .ok lengthVal =>
    .ok { title := deQuot td.song
        , track_id := td.id
        , artist := if td.singers = "" then td.music else td.singers
        , album := deQuot td.album
        , artist_id := td.music_id
        , length := lengthVal
        , starring := if td.starring ≠ "" then some td.starring else none
        , perma_url := td.perma_url
        , data_source := "JioSaavn" }

/-- jiosaavn.py lines 146-150: `release_date.split("-")` and the three
`int(...)` conversions (`year` first, so a `ValueError` on it precedes
the `IndexError` of a missing part). -/
def jioParseDate (s : String) : Except PyErr (Nat × Nat × Nat) :=
  let parts := splitOnSub '-' [] s.data
  match pyInt ⟨parts.getD 0 []⟩ with
  | .error e => .error e
  | .ok y =>
    match parts.get? 1 with
    | none => .error .indexError
    | some p1 =>
      match pyInt ⟨p1⟩ with
      | .error e => .error e
      | .ok m =>
        match parts.get? 2 with
        | none => .error .indexError
        | some p2 =>
          match pyInt ⟨p2⟩ with
          | .error e => .error e
          | .ok d => .ok (y, m, d)

/-- jiosaavn.py lines 133-179, `get_album_info`.  The locals
`cover_art_url`, `label`, `month`/`day` are only conditionally assigned
(no `else` branches); reading an unbound one while evaluating the
`AlbumInfo(...)` arguments raises `NameError`/`UnboundLocalError`.  The
`AlbumInfo` argument order makes `month` fail first, then
`mediums=max(medium_totals.keys())`, then `cover_art_url`, then `label`. -/
def jioGetAlbumInfo (env : JioEnv) (item : JioAlbumItem) (ty : String) : Except PyErr AlbumInfo :=
  let albumTitle := deQuot item.title
  let url := replace150 item.image
  let coverBound : Option String := if env.validImage url then some url else none
  match item.songs with
  | [] => .error .indexError    -- item["songs"][0] at line 144
  | s0 :: _ =>
    let labelBound : Option String := s0.label
    match (match item.release_date with
           | some ds => (jioParseDate ds).map some
           | none => .ok none) with
    | .error e => .error e
    | .ok dateBound =>
      match mapTracksFrom jioGetTrack 1 item.songs with
      | .error e => .error e
      | .ok ts =>
        let tracks := assignMediumTotals ts
        match dateBound with
        | none => .error .nameError     -- `month` never bound (line 171)
        | some (y, m, d) =>
          match pyMax (mediumKeys ts) with
          | .error e => .error e
          | .ok mediumsVal =>
            match coverBound with
            | none => .error .nameError  -- `cover_art_url` never bound (line 177)
            | some cover =>
              match labelBound with
              | none => .error .nameError  -- `label` never bound (line 178)
              | some labelVal =>
                .ok { album := albumTitle
                    , album_id := item.albumid
                    , artist := item.primary_artists
                    , artist_id := item.primary_artists_id
                    , tracks := tracks
                    , albumtype := ty
                    , year := y
                    , month := some m
                    , day := some d
                    , mediums := mediumsVal
                    , data_source := "JioSaavn"
                    , data_url := item.perma_url
                    , cover_art_url := some cover
                    , label := some labelVal }

/-- jiosaavn.py lines 60-82, `get_albums`.  The `except` clause only
logs; control then falls through to `for album in data["results"]` where
the local `data` was never bound, raising `UnboundLocalError`. -/
def jioGetAlbums (env : JioEnv) (query : String) : Except PyErr (List AlbumInfo) :=
  let q := normalizeQuery query
  match env.search_album q with
  | .error _ => .error .nameError
  | .ok data =>
    exMapM (fun hit =>
      match env.get_album_details (env.create_identifier hit.perma_url "album") with
      | .error e => .error e
      | .ok det => jioGetAlbumInfo env det hit.type) data.results

/-- jiosaavn.py lines 84-106, `get_tracks`; same fall-through bug on a
failed search. -/
def jioGetTracks (env : JioEnv) (query : String) : Except PyErr (List TrackInfo) :=
  let q := normalizeQuery query
  match env.search_song q with
  | .error _ => .error .nameError
  | .ok data =>
    exMapM (fun hit =>
      match env.get_song_details (env.create_identifier hit.perma_url "song") with
      | .error e => .error e
      | .ok resp =>
        match resp.songs.head? with
        | none => .error .indexError   -- song_details["songs"][0]
        | some s => jioGetTrack s) data.results

/-- jiosaavn.py lines 108-120, `candidates`. -/
def jioCandidates (env : JioEnv) (artist release : String) (va_likely : Bool) : List AlbumInfo :=
  let query := if va_likely then release else release ++ " " ++ artist
  match jioGetAlbums env query with
  | .ok l => l
  | .error _ => []

/-- jiosaavn.py lines 122-131, `item_candidates`. -/
def jioItemCandidates (env : JioEnv) (artist title : String) : List TrackInfo :=
  match jioGetTracks env (title ++ " " ++ artist) with
  | .ok l => l
  | .error _ => []

/-- jiosaavn.py lines 212-220, `album_for_id`: the substring guard
returns `None`; past the guard there is no `try`, so client failures
propagate. -/
def jioAlbumForId (env : JioEnv) (release_id : String) : Except PyErr (Option AlbumInfo) :=
  if containsSub "jiosaavn.com/album/".data release_id.data then
    match env.get_album_details (env.create_identifier release_id "album") with
    | .error e => .error e
    | .ok det => (jioGetAlbumInfo env det "album").map some
  else
    .ok none

/-- jiosaavn.py lines 222-230, `track_for_id`. -/
def jioTrackForId (env : JioEnv) (track_id : String) : Except PyErr (Option TrackInfo) :=
  if containsSub "jiosaavn.com/song/".data track_id.data then
    match env.get_song_details (env.create_identifier track_id "song") with
    | .error e => .error e
    | .ok resp =>
      match resp.songs.head? with
      | none => .error .indexError
      | some s => (jioGetTrack s).map some
  else
    .ok none

/-! ## YouTube adapter (`beetsplug/youtube.py`) -/

structure YtArtist where
  name : Option String := none
  id : Option String := none
  deriving Repr, DecidableEq

/-- A YouTube song object (an album's `tracks` entry or a
`get_song(...)['videoDetails']` payload).  `none` models an absent key,
so `track_data.get('title')` yields Python `None` and the subsequent
`.replace` raises `AttributeError`. -/
structure YtSongData where
  title : Option String := none
  videoId : Option String := none
  artists : List YtArtist := []
  album : Option String := none
  duration_seconds : Option Nat := none
  viewCount : Option Nat := none
  deriving Repr, DecidableEq

structure YtAlbumItem where
  title : String
  type : String
  artists : List YtArtist
  year : Nat
  thumbnails : List String
  tracks : List YtSongData
  deriving Repr, DecidableEq

structure YtAlbumHit where
  title : String
  browseId : String
  deriving Repr, DecidableEq

structure YtSongHit where
  videoId : String
  deriving Repr, DecidableEq

/-- `yt.get_song(...)` response: `videoDetails` may be absent
(`KeyError` on subscript). -/
structure SongResp where
  videoDetails : Option YtSongData
  deriving Repr, DecidableEq

structure PlAlbumRef where
  name : Option String := none
  deriving Repr, DecidableEq

/-- A playlist entry as consumed by the mapping loop of
`import_youtube_playlist`; `none` fields model absent keys (the code
reads them with defaulted `.get`). -/
structure PlSong where
  title : Option String := none
  artists : List YtArtist := []
  album : Option PlAlbumRef := none
  deriving Repr, DecidableEq

/-- A `get_playlist` response: Python `None`, a dict without a
`'tracks'` key, or a dict with a track list. -/
inductive PlaylistResp where
  | isNone
  | noTracks
  | withTracks (tracks : List PlSong)
  deriving Repr, DecidableEq

/-- The collaborators of the YouTube plugin: the `YTMusic` client calls
(any of which may raise), the cover-art validator, and the
`exclude_fields` configuration (`excludeCover` is whether
`'cover_art_url'` is listed). -/
structure YtEnv where
  searchAlbums : String → Except PyErr (List YtAlbumHit)
  searchSongs : String → Except PyErr (List YtSongHit)
  get_album : String → Except PyErr YtAlbumItem
  get_song : PyVal → Except PyErr SongResp
  get_album_browse_id : String → Except PyErr String
  get_playlist : String → Except PyErr PlaylistResp
  validImage : String → Bool
  excludeCover : Bool

/-- youtube.py lines 311-316, `get_yt_views`: every exception (remote
failure or missing key) is swallowed into `None`. -/
def getYtViews (env : YtEnv) (v : PyVal) : Option Nat :=
  match env.get_song v with
  | .error _ => none
  | .ok resp =>
    match resp.videoDetails with
    | none => none
    | some vd => vd.viewCount

/-- youtube.py lines 255-272, `_get_track`.  Line 259 reads
`views = self.get_yt_views(id)`: no local named `id` is in scope, so
`id` resolves to the Python builtin function — the argument does not
depend on the track being mapped. -/
def ytGetTrack (env : YtEnv) (td : YtSongData) : Except PyErr TrackInfo :=
  let yt_track_id := td.videoId.getD ""
  let views := getYtViews env PyVal.builtinId
  match td.title with
  | none => .error .attributeError    -- None.replace("&quot;", "\"")
  | some titleStr =>
    match td.artists.head? with
    | none => .error .indexError      -- track_data.get('artists', '')[0]
    | some artist0 =>
      match td.album with
      | none => .error .attributeError
      | some albumStr =>
        .ok { title := deQuot titleStr
            , track_id := yt_track_id
            , artist := artist0.name.getD ""
            , album := deQuot albumStr
            , artist_id := artist0.id.getD ""
            , length := td.duration_seconds.getD 0
            , yt_views := views
            , data_source := "YouTube" }

/-- youtube.py lines 215-253, `get_album_info`.  The per-track loop
(lines 235-239) counts `medium_totals` but — unlike the JioSaavn
adapter — never assigns any track's `medium_total`. -/
def ytGetAlbumInfo (env : YtEnv) (item : YtAlbumItem) (browseID : String) : Except PyErr AlbumInfo :=
  let albumTitle := deQuot item.title
  match item.artists.head? with
  | none => .error .indexError        -- item['artists'][0] at line 221
  | some artist0 =>
    match item.thumbnails.getLast? with
    | none => .error .indexError      -- item['thumbnails'][-1] at line 223
    | some url =>
      let cover : Option String :=
        if env.excludeCover then none
        else if env.validImage url then some url else none
      match mapTracksFrom (ytGetTrack env) 1 item.tracks with
      | .error e => .error e
      | .ok tracks =>
        match pyMax (mediumKeys tracks) with
        | .error e => .error e
        | .ok mediumsVal =>
          .ok { album := albumTitle
              , album_id := browseID
              , artist := artist0.name.getD ""
              , artist_id := artist0.id.getD ""
              , tracks := tracks
              , albumtype := item.type
              , year := item.year
              , mediums := mediumsVal
              , data_source := "YouTube"
              , cover_art_url := cover }

/-- youtube.py lines 138-163, `get_albums`: a failed search is logged
and the (still empty) `albums` list returned; failures after the search
(detail fetch or mapping) propagate. -/
def ytGetAlbums (env : YtEnv) (query : String) : Except PyErr (List AlbumInfo) :=
  let q := normalizeQuery query
  match env.searchAlbums q with
  | .error _ => .ok []
  | .ok data =>
    exMapM (fun hit =>
      match env.get_album hit.browseId with
      | .error e => .error e
      | .ok det => ytGetAlbumInfo env det hit.browseId) data

/-- youtube.py lines 165-188, `get_tracks`. -/
def ytGetTracks (env : YtEnv) (query : String) : Except PyErr (List TrackInfo) :=
  let q := normalizeQuery query
  match env.searchSongs q with
  | .error _ => .ok []
  | .ok data =>
    exMapM (fun hit =>
      match env.get_song (PyVal.str hit.videoId) with
      | .error e => .error e
      | .ok resp =>
        match resp.videoDetails with
        | none => .error .keyError    -- song_details['videoDetails']
        | some vd => ytGetTrack env vd) data

/-- youtube.py lines 190-202, `candidates`. -/
def ytCandidates (env : YtEnv) (artist release : String) (va_likely : Bool) : List AlbumInfo :=
  let query := if va_likely then release else release ++ " " ++ artist
  match ytGetAlbums env query with
  | .ok l => l
  | .error _ => []

/-- youtube.py lines 204-213, `item_candidates`. -/
def ytItemCandidates (env : YtEnv) (artist title : String) : List TrackInfo :=
  match ytGetTracks env (title ++ " " ++ artist) with
  | .ok l => l
  | .error _ => []

/-- youtube.py lines 278-281: the `'OLAK5uy'` rewrite of `album_for_id`
(`split('=')[1]` then `get_album_browse_id`, both outside any `try`). -/
def ytRewriteBrowseId (env : YtEnv) (browseId : String) : Except PyErr String :=
  let b := if browseId.data.contains '=' then
             String.mk ((splitOnSub '=' [] browseId.data).getD 1 [])
           else browseId
  env.get_album_browse_id b

/-- youtube.py lines 274-287, `album_for_id`: only the `get_album` call
is guarded by `try`; the browse-id conversion before it and the
`get_album_info` mapping after it both propagate exceptions.  On
success the mapping is called with the literal string `'album'` as the
browse id. -/
def ytAlbumForId (env : YtEnv) (browseId : String) : Except PyErr (Option AlbumInfo) :=
  match (if containsSub "OLAK5uy".data browseId.data then
           ytRewriteBrowseId env browseId
         else .ok browseId) with
  | .error e => .error e
  | .ok b =>
    match env.get_album b with
    | .error _ => .ok none
    | .ok det => (ytGetAlbumInfo env det "album").map some

/-! ## Playlist import (`import_youtube_playlist`, youtube.py lines 318-377) -/

inductive LogLevel where
  | debug
  | info
  | error
  deriving Repr, DecidableEq

structure SongDict where
  title : String
  artist : String
  album : Option String
  deriving Repr, DecidableEq

/-- youtube.py lines 324-327: `url.split("playlist?list=")[1]`, then cut
at the first `'&'`. -/
def extractPlaylistId (url : String) : String :=
  let pid := (splitOnSub 'p' "laylist?list=".data url.data).getD 1 []
  if pid.contains '&' then ⟨pid.takeWhile (fun c => c ≠ '&')⟩ else ⟨pid⟩

/-- youtube.py lines 352-375: the per-song mapping of the playlist loop
(total: every value is read through defaulted `.get` or guarded). -/
def plMapSong (s : PlSong) : SongDict :=
  let titleStr := deQuot (s.title.getD "")
  let artistStr :=
    match s.artists.head? with
    | some a => deQuot (a.name.getD "")
    | none => ""
  let albumName : Option String :=
    match s.album with
    | some ar =>
      match ar.name with
      | some n => some (deQuot n)
      | none => none
    | none => none
  { title := pyStrip titleStr
  , artist := pyStrip artistStr
  , album :=
      match albumName with
      | some an => if an ≠ "" then some (pyStrip an) else none
      | none => none }

/-- youtube.py lines 318-377, `import_youtube_playlist`; the second
component records the levels of the log calls made, in order. -/
def importYoutubePlaylist (env : YtEnv) (url : String) :
    Except PyErr (List SongDict) × List LogLevel :=
  if containsSub "playlist?list=".data url.data = false then
    (.ok [], [.error])
  else
    match env.get_playlist (extractPlaylistId url) with
    | .error _ => (.ok [], [.debug, .error])
    | .ok .isNone => (.ok [], [.debug, .error])
    | .ok .noTracks => (.ok [], [.debug, .error])
    | .ok (.withTracks songs) => (.ok (songs.map plMapSong), [.debug, .info])

/-! ## Match scorer (spec §4.2)

Modelled from the spec: the match scorer is not present in the
repository sources — `youtube.py` imports `SequenceMatcher` but never
uses it, and the spec notes the scoring helper exists only in other
revisions of `import_youtube_search`.  The definitions below follow the
spec's §4.2 wording step by step. -/

/-- Modelled from the spec: the filler tokens removed by cleaning
(§4.2 step 1). -/
def fillerTokens : List String :=
  ["from", "feat", "ft", "featuring", "official", "video", "audio", "lyrics"]

/-- Modelled from the spec: clean a string — lowercase, strip
punctuation, collapse whitespace, drop filler tokens (§4.2 step 1). -/
def cleanTokens (s : String) : List String :=
  ((String.mk (s.data.map (fun c => if c.isAlphanum then c.toLower else ' '))).split
      (fun c => c = ' ')).filter
    (fun w => w ≠ "" && !(fillerTokens.contains w))

def cleanStr (s : String) : String := " ".intercalate (cleanTokens s)

/-- Modelled from the spec: longest-common-subsequence length, the
matching-character count of the "normalized sequence-similarity ratio
(edit-distance-based, symmetric)" of §4.2 step 3. -/
def lcsLen : List Char → List Char → Nat
  | [], _ => 0
  | _ :: _, [] => 0
  | a :: as, b :: bs =>
    if a = b then lcsLen as bs + 1
    else Nat.max (lcsLen (a :: as) bs) (lcsLen as (b :: bs))
termination_by a b => a.length + b.length
decreasing_by
  · simp only [List.length_cons]
    omega
  · simp only [List.length_cons]
    omega
  · simp only [List.length_cons]
    omega

/-- Modelled from the spec: `2*M / (len(a)+len(b))`, 1 on two empty
strings (§4.2 step 3). -/
def seqSim (a b : String) : ℚ :=
  if a.length + b.length = 0 then 1
  else 2 * (lcsLen a.data b.data : ℚ) / ((a.length : ℚ) + (b.length : ℚ))

/-- Modelled from the spec: the length-ratio penalty `min(len)/max(len)`
(§4.2 step 3); 1 when both strings are empty. -/
def lenPenalty (a b : String) : ℚ :=
  if Nat.max a.length b.length = 0 then 1
  else (Nat.min a.length b.length : ℚ) / (Nat.max a.length b.length : ℚ)

/-- Split at the first occurrence of `sep`; `none` when absent. -/
def splitFirstOn (sep : List Char) : List Char → Option (List Char × List Char)
  | [] => none
  | c :: cs =>
    if sep.isPrefixOf (c :: cs) then some ([], (c :: cs).drop sep.length)
    else
      match splitFirstOn sep cs with
      | some (a, b) => some (c :: a, b)
      | none => none

/-- Modelled from the spec: split the search term on the first `" - "`
into (search title, search artist); empty artist when absent (§4.2
step 2). -/
def splitSearch (s : String) : String × String :=
  match splitFirstOn " - ".data s.data with
  | some (t, a) => (⟨t⟩, ⟨a⟩)
  | none => (s, "")

/-- Modelled from the spec: the §4.2 match scorer — title similarity
(ratio × length penalty, forced to 1 on exact cleaned match, halved when
below 0.5), artist similarity (forced to 1 on exact cleaned match, 0.5
when the search term has no artist part), combined 0.8/0.2. -/
def matchScore (title artist search : String) : ℚ :=
  let st := (splitSearch search).1
  let sa := (splitSearch search).2
  let ct := cleanStr title
  let cst := cleanStr st
  let base := if ct = cst then 1 else seqSim ct cst * lenPenalty ct cst
  let tSim := if base < 1 / 2 then base * (1 / 2) else base
  let aSim :=
    if sa ≠ "" then
      (if cleanStr artist = cleanStr sa then 1
       else seqSim (cleanStr artist) (cleanStr sa))
    else (1 / 2 : ℚ)
  4 / 5 * tSim + 1 / 5 * aSim

/-! ## Supporting lemmas -/

/-- Inside an open non-word run, further non-word characters are
consumed without output. -/
theorem collapseGo_true_skip :
    ∀ (r l : List Char), (∀ c ∈ r, isWordChar c = false) →
      collapseGo true (r ++ l) = collapseGo true l := by
  intro r
  induction r with
  | nil => intro l _; rfl
  | cons c r2 ih =>
      intro l hall
      have hc := hall c (List.mem_cons_self c r2)
      simp only [List.cons_append, collapseGo, hc, Bool.false_eq_true, if_false]
      exact ih l (fun x hx => hall x (List.mem_cons_of_mem c hx))

/-- At the end of the input or before a word character, the run state is
irrelevant. -/
theorem collapseGo_true_boundary {l : List Char}
    (h : l = [] ∨ ∃ d ds, l = d :: ds ∧ isWordChar d = true) :
    collapseGo true l = collapseGo false l := by
  rcases h with rfl | ⟨d, ds, rfl, hd⟩
  · rfl
  · simp only [collapseGo, hd, if_true]

/-- Success inversion for the JioSaavn album mapping: the produced
record's tracks are the mapped list with `medium_total` assigned, and
its `mediums` is the Python `max` over the medium keys. -/
theorem jioGetAlbumInfo_ok {env : JioEnv} {item : JioAlbumItem} {ty : String} {info : AlbumInfo}
    (h : jioGetAlbumInfo env item ty = .ok info) :
    ∃ ts, mapTracksFrom jioGetTrack 1 item.songs = .ok ts ∧
      info.tracks = assignMediumTotals ts ∧
      pyMax (mediumKeys ts) = .ok info.mediums := by
  unfold jioGetAlbumInfo at h
  split at h
  · exact Except.noConfusion h
  · split at h
    · exact Except.noConfusion h
    · split at h
      · exact Except.noConfusion h
      · rename_i ts hts
        split at h
        · exact Except.noConfusion h
        · split at h
          · exact Except.noConfusion h
          · rename_i mv hmv
            dsimp only at h
            split at h
            · exact Except.noConfusion h
            · split at h
              · exact Except.noConfusion h
              · refine ⟨ts, hts, ?_, ?_⟩
                · cases h
                  rfl
                · cases h
                  exact hmv

/-- Success inversion for the YouTube album mapping. -/
theorem ytGetAlbumInfo_ok {env : YtEnv} {item : YtAlbumItem} {bid : String} {info : AlbumInfo}
    (h : ytGetAlbumInfo env item bid = .ok info) :
    ∃ ts, mapTracksFrom (ytGetTrack env) 1 item.tracks = .ok ts ∧
      info.tracks = ts ∧
      pyMax (mediumKeys ts) = .ok info.mediums := by
  unfold ytGetAlbumInfo at h
  split at h
  · exact Except.noConfusion h
  · split at h
    · exact Except.noConfusion h
    · dsimp only at h
      split at h
      · exact Except.noConfusion h
      · rename_i ts hts
        split at h
        · exact Except.noConfusion h
        · rename_i mv hmv
          refine ⟨ts, hts, ?_, ?_⟩
          · cases h
            rfl
          · cases h
            exact hmv

/-- Every track produced by the shared indexing loop satisfies any
property established by the per-song mapper and preserved by setting
`index`. -/
theorem mapTracksFrom_pres {σ : Type} {f : σ → Except PyErr TrackInfo} {P : TrackInfo → Prop}
    (hf : ∀ s t, f s = .ok t → P t)
    (hidx : ∀ t i, P t → P { t with index := some i }) :
    ∀ (i : Nat) (ss : List σ) (ts : List TrackInfo),
      mapTracksFrom f i ss = .ok ts → ∀ t ∈ ts, P t := by
  intro i ss
  induction ss generalizing i with
  | nil =>
      intro ts h t ht
      simp only [mapTracksFrom] at h
      cases h
      simp at ht
  | cons s ss ih =>
      intro ts h t ht
      simp only [mapTracksFrom] at h
      split at h
      · exact Except.noConfusion h
      · rename_i t0 ht0
        split at h
        · exact Except.noConfusion h
        · rename_i ts0 hts0
          cases h
          rcases List.mem_cons.mp ht with rfl | hmem
          · exact hidx t0 i (hf s t0 ht0)
          · exact ih (i + 1) ts0 hts0 t hmem

theorem jioGetTrack_fields {td : JioSong} {t : TrackInfo} (h : jioGetTrack td = .ok t) :
    t.medium = none ∧ t.medium_total = none := by
  unfold jioGetTrack at h
  split at h
  · exact Except.noConfusion h
  · cases h
    exact ⟨rfl, rfl⟩

theorem ytGetTrack_fields {env : YtEnv} {td : YtSongData} {t : TrackInfo} (h : ytGetTrack env td = .ok t) :
    t.medium = none ∧ t.medium_total = none ∧ t.yt_views = getYtViews env PyVal.builtinId := by
  unfold ytGetTrack at h
  dsimp only at h
  split at h
  · exact Except.noConfusion h
  · split at h
    · exact Except.noConfusion h
    · split at h
      · exact Except.noConfusion h
      · cases h
        exact ⟨rfl, rfl, rfl⟩

theorem mediumKeysFold_none :
    ∀ (ts : List TrackInfo), (∀ t ∈ ts, t.medium = none) →
      ts.foldl (fun ks t => if ks.contains t.medium then ks else ks ++ [t.medium]) [none] = [none] := by
  intro ts
  induction ts with
  | nil => intro _; rfl
  | cons t ts ih =>
      intro hall
      have ht := hall t (List.mem_cons_self t ts)
      have hstep : (if ([none] : List (Option Nat)).contains t.medium then ([none] : List (Option Nat))
                    else [none] ++ [t.medium]) = [none] := by
        rw [ht]
        rfl
      rw [List.foldl_cons]
      show List.foldl _ (if ([none] : List (Option Nat)).contains t.medium then _ else _) ts = _
      rw [hstep]
      exact ih (fun u hu => hall u (List.mem_cons_of_mem t hu))

/-- When no track carries a medium and the list is nonempty, the
`medium_totals` dict has the single key `None`. -/
theorem mediumKeys_all_none {ts : List TrackInfo} (hall : ∀ t ∈ ts, t.medium = none) (hne : ts ≠ []) :
    mediumKeys ts = [none] := by
  cases ts with
  | nil => exact absurd rfl hne
  | cons t ts =>
      have ht := hall t (List.mem_cons_self t ts)
      unfold mediumKeys
      rw [List.foldl_cons]
      show List.foldl _ (if ([] : List (Option Nat)).contains t.medium then _ else _) ts = _
      have hstep : (if ([] : List (Option Nat)).contains t.medium then ([] : List (Option Nat))
                    else [] ++ [t.medium]) = [none] := by
        rw [ht]
        rfl
      rw [hstep]
      exact mediumKeysFold_none ts (fun u hu => hall u (List.mem_cons_of_mem t hu))

theorem countP_medium_map (g : TrackInfo → TrackInfo) (hg : ∀ t, (g t).medium = t.medium)
    (ts : List TrackInfo) (m : Option Nat) :
    (ts.map g).countP (fun u => u.medium == m) = ts.countP (fun u => u.medium == m) := by
  induction ts with
  | nil => rfl
  | cons t ts ih =>
      simp only [List.map_cons, List.countP_cons, ih, hg]

/-- Reassigning `medium_total` does not change per-medium counts. -/
theorem countP_assign (ts : List TrackInfo) (m : Option Nat) :
    (assignMediumTotals ts).countP (fun u => u.medium == m) = ts.countP (fun u => u.medium == m) :=
  countP_medium_map (fun t => { t with medium_total := some (mediumTotals ts t.medium) })
    (fun _ => rfl) ts m

/-! ## Concrete inputs and environments used by counterexamples and
witnesses -/

def dummyTrack : TrackInfo :=
  { title := "", track_id := "", artist := "", album := "" }

def dummyAlbum : AlbumInfo :=
  { album := "", album_id := "", artist := "", artist_id := "", tracks := [], albumtype := "" }

def jioSongDemo (n : String) : JioSong :=
  { song := n, id := "id" ++ n, album := "Alb", duration := "200", singers := "S", music := "M",
    music_id := "mid", starring := "", label := some "Lbl", perma_url := "u" }

def jioItemDemo : JioAlbumItem :=
  { title := "Alb", albumid := "77", perma_url := "pu", primary_artists_id := "9",
    primary_artists := "A", year := 1999, image := "http://a/150x150.jpg",
    release_date := some "2020-01-02", songs := [jioSongDemo "s1", jioSongDemo "s2"] }

def jioEnvDemo : JioEnv :=
  { search_album := fun _ => .ok { results := [] }
  , search_song := fun _ => .ok { results := [] }
  , create_identifier := fun u _ => u
  , get_album_details := fun _ => .ok jioItemDemo
  , get_song_details := fun _ => .ok { songs := [jioSongDemo "s1"] }
  , validImage := fun _ => true }

def jioEnvSearchFail : JioEnv :=
  { jioEnvDemo with
      search_album := fun _ => .error .remoteError
    , search_song := fun _ => .error .remoteError }

def jioEnvNoImage : JioEnv := { jioEnvDemo with validImage := fun _ => false }

def ytSongDemo (n vid : String) : YtSongData :=
  { title := some n, videoId := some vid
  , artists := [{ name := some "Ar", id := some "aid" }]
  , album := some "Alb", duration_seconds := some 100 }

def ytItemDemo : YtAlbumItem :=
  { title := "Alb", type := "Album", artists := [{ name := some "Ar", id := some "aid" }]
  , year := 2020, thumbnails := ["http://t1", "http://t2"]
  , tracks := [ytSongDemo "a" "v1", ytSongDemo "b" "v2"] }

def ytEnvDemo : YtEnv :=
  { searchAlbums := fun _ => .ok []
  , searchSongs := fun _ => .ok []
  , get_album := fun _ => .ok ytItemDemo
  , get_song := fun v =>
      match v with
      | .str _ => .ok { videoDetails := some (ytSongDemo "a" "v1") }
      | .builtinId => .error .remoteError
  , get_album_browse_id := fun _ => .error .remoteError
  , get_playlist := fun _ => .ok .isNone
  , validImage := fun _ => true
  , excludeCover := false }

def ytEnvSearchFail : YtEnv :=
  { ytEnvDemo with
      searchAlbums := fun _ => .error .remoteError
    , searchSongs := fun _ => .error .remoteError }

/-- Search succeeds with one hit but the detail fetch raises, so
`get_albums`/`get_tracks` themselves raise. -/
def ytEnvDetailFail : YtEnv :=
  { ytEnvDemo with
      searchAlbums := fun _ => .ok [{ title := "t", browseId := "b" }]
    , searchSongs := fun _ => .ok [{ videoId := "v" }]
    , get_album := fun _ => .error .remoteError
    , get_song := fun _ => .error .remoteError }

def ytEnvNoImage : YtEnv := { ytEnvDemo with validImage := fun _ => false }

/-- `get_song` succeeds on the builtin `id` argument with a view count,
to exhibit that every mapped track receives that same count. -/
def ytEnvViews : YtEnv :=
  { ytEnvDemo with
      get_song := fun _ => .ok { videoDetails := some { viewCount := some 7 } } }

def ytEnvPlaylistErr : YtEnv := { ytEnvDemo with get_playlist := fun _ => .error .remoteError }

def ytEnvPlaylistNoTracks : YtEnv := { ytEnvDemo with get_playlist := fun _ => .ok .noTracks }

/-- The album record the JioSaavn mapping produces on the demo input. -/
def jioInfoDemo : AlbumInfo :=
  (jioGetAlbumInfo jioEnvDemo jioItemDemo "album").toOption.getD dummyAlbum

/-- The album record the YouTube mapping produces on the demo input. -/
def ytInfoDemo : AlbumInfo :=
  (ytGetAlbumInfo ytEnvDemo ytItemDemo "b0").toOption.getD dummyAlbum

/-- The album record the YouTube mapping produces when cover-art
validation fails. -/
def ytInfoNoImage : AlbumInfo :=
  (ytGetAlbumInfo ytEnvNoImage ytItemDemo "b0").toOption.getD dummyAlbum

def ytTrackOutA : TrackInfo :=
  (ytGetTrack ytEnvViews (ytSongDemo "a" "v1")).toOption.getD dummyTrack

def ytTrackOutB : TrackInfo :=
  (ytGetTrack ytEnvViews (ytSongDemo "b" "v2")).toOption.getD dummyTrack

/-- Follows the spec's words (for comparison with the code): "disc count
(max of per-disc track counts)" — the maximum, over the distinct medium
keys, of the number of tracks carrying that key. -/
def specMaxPerDiscCount (ts : List TrackInfo) : Nat :=
  ((mediumKeys ts).map (fun m => mediumTotals ts m)).foldl Nat.max 0

/-! ## Claims -/

/-- C1: the claim asserts that in BOTH adapters' `get_album_info` every
produced track's `medium_total` equals the number of tracks sharing its
medium, assigned after the full pass.  This fails for the YouTube
adapter: its loop counts `medium_totals` but never assigns any track's
`medium_total`, which stays at its `None` default — here on a concrete
two-track album whose per-medium count is 2. -/
theorem C1_counterexample :
    (ytGetAlbumInfo ytEnvDemo ytItemDemo "b0").map
        (fun info => info.tracks.map
          (fun t => (t.medium_total, info.tracks.countP (fun u => u.medium == t.medium)))) =
      .ok [(none, 2), (none, 2)] ∧ (none : Option Nat) ≠ some 2 :=
  ⟨rfl, by decide⟩

/-- C1 (amended): in the JioSaavn adapter every successfully mapped
album's track has `medium_total` equal to the number of tracks sharing
its medium, assigned by the second loop after all tracks are mapped; in
the YouTube adapter `medium_total` is never assigned and remains `None`
on every produced track. -/
theorem C1_medium_total_amended :
    (∀ (env : JioEnv) (item : JioAlbumItem) (ty : String) (info : AlbumInfo),
        jioGetAlbumInfo env item ty = .ok info →
        ∀ t ∈ info.tracks,
          t.medium_total = some (info.tracks.countP (fun u => u.medium == t.medium))) ∧
    (∀ (env : YtEnv) (item : YtAlbumItem) (bid : String) (info : AlbumInfo),
        ytGetAlbumInfo env item bid = .ok info →
        ∀ t ∈ info.tracks, t.medium_total = none) := by
  constructor
  · intro env item ty info h t ht
    obtain ⟨ts, hts, htr, hmx⟩ := jioGetAlbumInfo_ok h
    rw [htr] at ht ⊢
    simp only [assignMediumTotals, List.mem_map] at ht
    obtain ⟨t0, ht0, rfl⟩ := ht
    show some (mediumTotals ts t0.medium) =
      some ((assignMediumTotals ts).countP (fun u => u.medium == t0.medium))
    rw [countP_assign]
    rfl
  · intro env item bid info h t ht
    obtain ⟨ts, hts, htr, hmx⟩ := ytGetAlbumInfo_ok h
    rw [htr] at ht
    exact mapTracksFrom_pres (P := fun u => u.medium_total = none)
      (fun s u hsu => (ytGetTrack_fields hsu).2.1)
      (fun u i hp => hp) 1 item.tracks ts hts t ht

/-- C1 witness: both amended branches applied at the demo albums. -/
theorem C1_witness :
    (jioInfoDemo.tracks.getD 0 dummyTrack).medium_total =
        some (jioInfoDemo.tracks.countP
          (fun u => u.medium == (jioInfoDemo.tracks.getD 0 dummyTrack).medium)) ∧
    (ytInfoDemo.tracks.getD 0 dummyTrack).medium_total = none :=
  ⟨C1_medium_total_amended.1 jioEnvDemo jioItemDemo "album" jioInfoDemo rfl _ (by decide),
   C1_medium_total_amended.2 ytEnvDemo ytItemDemo "b0" ytInfoDemo rfl _ (by decide)⟩

/-- C2: the query normalizer first replaces every maximal run of
non-word characters by a single space (word characters pass through
unchanged), and only then removes `(?i)\b(CD|disc)\s*\d+` markers; in
particular `CD2` and `disc 3` markers are removed. -/
theorem C2_query_normalizer :
    (∀ s : String, normalizeQuery s = ⟨removeDiscMarkers (collapseNonWord s.data)⟩) ∧
    (∀ c cs, isWordChar c = true → collapseNonWord (c :: cs) = c :: collapseNonWord cs) ∧
    (∀ r l, r ≠ [] → (∀ c ∈ r, isWordChar c = false) →
        (l = [] ∨ ∃ d ds, l = d :: ds ∧ isWordChar d = true) →
        collapseNonWord (r ++ l) = ' ' :: collapseNonWord l) ∧
    normalizeQuery "Album CD2" = "Album " ∧
    normalizeQuery "Album disc 3" = "Album " ∧
    normalizeQuery "Best of! (Disc 12)" = "Best of  " ∧
    normalizeQuery "Süß+Musik cd04!" = "Süß Musik  " := by
  refine ⟨fun s => rfl, ?_, ?_, rfl, rfl, rfl, rfl⟩
  · intro c cs h
    simp only [collapseNonWord, collapseGo, h, if_true]
  · intro r l hne hall hbound
    cases r with
    | nil => exact absurd rfl hne
    | cons c r2 =>
        have hc := hall c (List.mem_cons_self c r2)
        simp only [collapseNonWord, List.cons_append, collapseGo, hc, Bool.false_eq_true, if_false]
        show ' ' :: collapseGo true (r2 ++ l) = ' ' :: collapseGo false l
        rw [collapseGo_true_skip r2 l (fun x hx => hall x (List.mem_cons_of_mem c hx))]
        rw [collapseGo_true_boundary hbound]

/-- C2 witness: the run-collapsing branches applied at concrete inputs. -/
theorem C2_witness :
    collapseNonWord ['a'] = 'a' :: collapseNonWord [] ∧
    collapseNonWord (['-', '!'] ++ ['x']) = ' ' :: collapseNonWord ['x'] :=
  ⟨C2_query_normalizer.2.1 'a' [] (by decide),
   C2_query_normalizer.2.2.1 ['-', '!'] ['x'] (by decide) (by decide)
     (Or.inr ⟨'x', [], rfl, by decide⟩)⟩

/-- C3: whenever the search term `"{title} - {artist}"` splits back into
the candidate's own title and artist (i.e. the title does not itself
produce an earlier `" - "` occurrence) and the artist is non-empty, the
scorer returns exactly 1: the cleaned candidate title equals the cleaned
search title, forcing title similarity to 1, and likewise for the
artist, so the 0.8/0.2 combination is 1. -/
theorem C3_match_scorer (title artist : String)
    (hsplit : splitSearch (title ++ " - " ++ artist) = (title, artist))
    (hartist : artist ≠ "") :
    matchScore title artist (title ++ " - " ++ artist) = 1 := by
  unfold matchScore
  rw [hsplit]
  simp only [if_pos rfl, hartist, ne_eq, not_false_eq_true, if_true]
  norm_num

/-- C3 witness. -/
theorem C3_witness : matchScore "Hello" "Adele" ("Hello" ++ " - " ++ "Adele") = 1 :=
  C3_match_scorer "Hello" "Adele" (by decide) (by decide)

/-- C4: the claim says both adapters' `get_albums`/`get_tracks` log a
failed remote search and return an empty list.  The YouTube versions do
(`return albums`/`return tracks` inside the `except`); the JioSaavn
versions log but fall through to `for ... in data["results"]` with the
local `data` unbound, raising `UnboundLocalError` instead — evaluated
here at a concrete failing search. -/
theorem C4_search_soft_failure :
    jioGetAlbums jioEnvSearchFail "abba" = .error .nameError ∧
    jioGetTracks jioEnvSearchFail "abba" = .error .nameError ∧
    ytGetAlbums ytEnvSearchFail "abba" = .ok [] ∧
    ytGetTracks ytEnvSearchFail "abba" = .ok [] :=
  ⟨rfl, rfl, rfl, rfl⟩

/-- C5: `candidates` builds the query as the release alone when
`va_likely`, else `"{release} {artist}"` (`"{title} {artist}"` for
`item_candidates`), returns whatever list the underlying search
produced, and converts any raised exception into an empty list. -/
theorem C5_candidates_soft_failure :
    (∀ (env : YtEnv) (artist release : String) (va : Bool) (e : PyErr),
        ytGetAlbums env (if va then release else release ++ " " ++ artist) = .error e →
        ytCandidates env artist release va = []) ∧
    (∀ (env : YtEnv) (artist release : String) (va : Bool) (l : List AlbumInfo),
        ytGetAlbums env (if va then release else release ++ " " ++ artist) = .ok l →
        ytCandidates env artist release va = l) ∧
    (∀ (env : YtEnv) (artist title : String) (e : PyErr),
        ytGetTracks env (title ++ " " ++ artist) = .error e →
        ytItemCandidates env artist title = []) ∧
    (∀ (env : YtEnv) (artist title : String) (l : List TrackInfo),
        ytGetTracks env (title ++ " " ++ artist) = .ok l →
        ytItemCandidates env artist title = l) ∧
    (∀ (env : JioEnv) (artist release : String) (va : Bool) (e : PyErr),
        jioGetAlbums env (if va then release else release ++ " " ++ artist) = .error e →
        jioCandidates env artist release va = []) ∧
    (∀ (env : JioEnv) (artist release : String) (va : Bool) (l : List AlbumInfo),
        jioGetAlbums env (if va then release else release ++ " " ++ artist) = .ok l →
        jioCandidates env artist release va = l) ∧
    (∀ (env : JioEnv) (artist title : String) (e : PyErr),
        jioGetTracks env (title ++ " " ++ artist) = .error e →
        jioItemCandidates env artist title = []) ∧
    (∀ (env : JioEnv) (artist title : String) (l : List TrackInfo),
        jioGetTracks env (title ++ " " ++ artist) = .ok l →
        jioItemCandidates env artist title = l) := by
  refine ⟨?_, ?_, ?_, ?_, ?_, ?_, ?_, ?_⟩
  · intro env artist release va e h
    simp only [ytCandidates, h]
  · intro env artist release va l h
    simp only [ytCandidates, h]
  · intro env artist title e h
    simp only [ytItemCandidates, h]
  · intro env artist title l h
    simp only [ytItemCandidates, h]
  · intro env artist release va e h
    simp only [jioCandidates, h]
  · intro env artist release va l h
    simp only [jioCandidates, h]
  · intro env artist title e h
    simp only [jioItemCandidates, h]
  · intro env artist title l h
    simp only [jioItemCandidates, h]

/-- C5 witness: both adapters, both branches, at concrete environments
(for the error branch, a search that succeeds but whose detail fetch
raises for YouTube, and the unbound-`data` failure for JioSaavn). -/
theorem C5_witness :
    ytCandidates ytEnvDetailFail "a" "r" false = [] ∧
    ytCandidates ytEnvDemo "a" "r" false = [] ∧
    ytItemCandidates ytEnvDetailFail "a" "t" = [] ∧
    jioCandidates jioEnvSearchFail "a" "r" false = [] ∧
    jioCandidates jioEnvDemo "a" "r" false = [] ∧
    jioItemCandidates jioEnvSearchFail "a" "t" = [] :=
  ⟨C5_candidates_soft_failure.1 ytEnvDetailFail "a" "r" false .remoteError rfl,
   C5_candidates_soft_failure.2.1 ytEnvDemo "a" "r" false [] rfl,
   C5_candidates_soft_failure.2.2.1 ytEnvDetailFail "a" "t" .remoteError rfl,
   C5_candidates_soft_failure.2.2.2.2.1 jioEnvSearchFail "a" "r" false .nameError rfl,
   C5_candidates_soft_failure.2.2.2.2.2.1 jioEnvDemo "a" "r" false [] rfl,
   C5_candidates_soft_failure.2.2.2.2.2.2.1 jioEnvSearchFail "a" "t" .nameError rfl⟩

/-- C6: the claim says a failed cover-art validation is treated as "no
valid cover" by both adapters.  YouTube behaves so (`cover_art_url`
becomes `None` and the mapping completes); JioSaavn's
`if self.is_valid_image_url(url): cover_art_url = url` has no `else`,
so the later `cover_art_url=cover_art_url` raises `UnboundLocalError` —
evaluated at a concrete album whose image URL fails validation. -/
theorem C6_cover_art_failure :
    jioGetAlbumInfo jioEnvNoImage jioItemDemo "album" = .error .nameError ∧
    ytGetAlbumInfo ytEnvNoImage ytItemDemo "b0" = .ok ytInfoNoImage ∧
    ytInfoNoImage.cover_art_url = none :=
  ⟨rfl, rfl, rfl⟩

/-- C7: the claim says `mediums` equals the maximum per-disc track
count.  The code sets `mediums=max(medium_totals.keys())` — the largest
medium KEY, not the largest count — and since `_get_track` never sets a
medium, the only key is `None`: on a concrete two-track album `mediums`
is `None` while the claimed value is 2. -/
theorem C7_counterexample :
    (jioGetAlbumInfo jioEnvDemo jioItemDemo "album").map
        (fun info => (info.mediums, specMaxPerDiscCount info.tracks)) =
      .ok (none, 2) ∧ (none : Option Nat) ≠ some 2 :=
  ⟨rfl, by decide⟩

/-- C7 (amended): `mediums` is `max(medium_totals.keys())`, the maximum
medium value among the album's tracks; as `_get_track` assigns no
medium, every successfully mapped album has `mediums = None`. -/
theorem C7_mediums_amended :
    (∀ (env : JioEnv) (item : JioAlbumItem) (ty : String) (info : AlbumInfo),
        jioGetAlbumInfo env item ty = .ok info → info.mediums = none) ∧
    (∀ (env : YtEnv) (item : YtAlbumItem) (bid : String) (info : AlbumInfo),
        ytGetAlbumInfo env item bid = .ok info → info.mediums = none) := by
  constructor
  · intro env item ty info h
    obtain ⟨ts, hts, htr, hmx⟩ := jioGetAlbumInfo_ok h
    have hall : ∀ t ∈ ts, t.medium = none :=
      mapTracksFrom_pres (P := fun u => u.medium = none)
        (fun s u hsu => (jioGetTrack_fields hsu).1) (fun u i hp => hp) 1 item.songs ts hts
    by_cases hne : ts = []
    · subst hne
      exact Except.noConfusion
        (show (Except.error .valueError : Except PyErr (Option Nat)) = .ok info.mediums from hmx)
    · rw [mediumKeys_all_none hall hne] at hmx
      have h2 : (Except.ok (none : Option Nat) : Except PyErr (Option Nat)) = .ok info.mediums := hmx
      injection h2 with h3
      exact h3.symm
  · intro env item bid info h
    obtain ⟨ts, hts, htr, hmx⟩ := ytGetAlbumInfo_ok h
    have hall : ∀ t ∈ ts, t.medium = none :=
      mapTracksFrom_pres (P := fun u => u.medium = none)
        (fun s u hsu => (ytGetTrack_fields hsu).1) (fun u i hp => hp) 1 item.tracks ts hts
    by_cases hne : ts = []
    · subst hne
      exact Except.noConfusion
        (show (Except.error .valueError : Except PyErr (Option Nat)) = .ok info.mediums from hmx)
    · rw [mediumKeys_all_none hall hne] at hmx
      have h2 : (Except.ok (none : Option Nat) : Except PyErr (Option Nat)) = .ok info.mediums := hmx
      injection h2 with h3
      exact h3.symm

/-- C7 witness: both amended branches applied at the demo albums. -/
theorem C7_witness : jioInfoDemo.mediums = none ∧ ytInfoDemo.mediums = none :=
  ⟨C7_mediums_amended.1 jioEnvDemo jioItemDemo "album" jioInfoDemo rfl,
   C7_mediums_amended.2 ytEnvDemo ytItemDemo "b0" ytInfoDemo rfl⟩

/-- C8: the claim says malformed references always yield `None` without
raising.  For YouTube, a malformed reference containing `'OLAK5uy'`
reaches `get_album_browse_id` outside any `try`, so its exception
propagates — evaluated at a concrete reference with a raising
conversion call. -/
theorem C8_counterexample :
    ytAlbumForId ytEnvDemo "xxOLAK5uy_zz" = .error .remoteError :=
  rfl

/-- C8 (amended): JioSaavn's `album_for_id`/`track_for_id` return `None`
without raising for any reference lacking the source substring, and
YouTube's `album_for_id` returns `None` when the album fetch raises —
but only for references not containing `'OLAK5uy'`; ones that do may
propagate the browse-id conversion's exception. -/
theorem C8_album_for_id_amended :
    (∀ (env : JioEnv) (r : String),
        containsSub "jiosaavn.com/album/".data r.data = false →
        jioAlbumForId env r = .ok none) ∧
    (∀ (env : JioEnv) (r : String),
        containsSub "jiosaavn.com/song/".data r.data = false →
        jioTrackForId env r = .ok none) ∧
    (∀ (env : YtEnv) (r : String) (e : PyErr),
        containsSub "OLAK5uy".data r.data = false →
        env.get_album r = .error e →
        ytAlbumForId env r = .ok none) := by
  refine ⟨?_, ?_, ?_⟩
  · intro env r h
    simp only [jioAlbumForId, h, Bool.false_eq_true, if_false]
  · intro env r h
    simp only [jioTrackForId, h, Bool.false_eq_true, if_false]
  · intro env r e h1 h2
    simp only [ytAlbumForId, h1, Bool.false_eq_true, if_false, h2]

/-- C8 witness. -/
theorem C8_witness :
    jioAlbumForId jioEnvDemo "spotify:album:123" = .ok none ∧
    jioTrackForId jioEnvDemo "spotify:track:123" = .ok none ∧
    ytAlbumForId ytEnvDetailFail "garbage-id" = .ok none :=
  ⟨C8_album_for_id_amended.1 jioEnvDemo "spotify:album:123" (by decide),
   C8_album_for_id_amended.2.1 jioEnvDemo "spotify:track:123" (by decide),
   C8_album_for_id_amended.2.2 ytEnvDetailFail "garbage-id" .remoteError (by decide) rfl⟩

/-- C9: `import_youtube_playlist` returns an empty list with an error
log (and no exception) for a URL lacking `"playlist?list="`, and for a
playlist fetch that raises, returns `None`, or returns a response
without a `'tracks'` key. -/
theorem C9_playlist_import :
    (∀ (env : YtEnv) (url : String),
        containsSub "playlist?list=".data url.data = false →
        importYoutubePlaylist env url = (.ok [], [.error])) ∧
    (∀ (env : YtEnv) (url : String) (e : PyErr),
        containsSub "playlist?list=".data url.data = true →
        env.get_playlist (extractPlaylistId url) = .error e →
        importYoutubePlaylist env url = (.ok [], [.debug, .error])) ∧
    (∀ (env : YtEnv) (url : String),
        containsSub "playlist?list=".data url.data = true →
        env.get_playlist (extractPlaylistId url) = .ok .isNone →
        importYoutubePlaylist env url = (.ok [], [.debug, .error])) ∧
    (∀ (env : YtEnv) (url : String),
        containsSub "playlist?list=".data url.data = true →
        env.get_playlist (extractPlaylistId url) = .ok .noTracks →
        importYoutubePlaylist env url = (.ok [], [.debug, .error])) := by
  refine ⟨?_, ?_, ?_, ?_⟩
  · intro env url h
    simp only [importYoutubePlaylist, h, if_pos]
  · intro env url e h1 h2
    simp only [importYoutubePlaylist, h1, Bool.true_eq_false, if_false, h2]
  · intro env url h1 h2
    simp only [importYoutubePlaylist, h1, Bool.true_eq_false, if_false, h2]
  · intro env url h1 h2
    simp only [importYoutubePlaylist, h1, Bool.true_eq_false, if_false, h2]

/-- C9 witness: all four branches at concrete URLs and environments. -/
theorem C9_witness :
    importYoutubePlaylist ytEnvDemo "https://y/watch?v=1" = (.ok [], [.error]) ∧
    importYoutubePlaylist ytEnvPlaylistErr "x/playlist?list=PL1" = (.ok [], [.debug, .error]) ∧
    importYoutubePlaylist ytEnvDemo "x/playlist?list=PL1" = (.ok [], [.debug, .error]) ∧
    importYoutubePlaylist ytEnvPlaylistNoTracks "x/playlist?list=PL1" = (.ok [], [.debug, .error]) :=
  ⟨C9_playlist_import.1 ytEnvDemo "https://y/watch?v=1" (by decide),
   C9_playlist_import.2.1 ytEnvPlaylistErr "x/playlist?list=PL1" .remoteError (by decide) rfl,
   C9_playlist_import.2.2.1 ytEnvDemo "x/playlist?list=PL1" (by decide) rfl,
   C9_playlist_import.2.2.2 ytEnvPlaylistNoTracks "x/playlist?list=PL1" (by decide) rfl⟩

/-- C10: `_get_track` computes `yt_views` by calling `get_yt_views` on
the Python builtin `id` — a value independent of the track — so every
successfully mapped track of the same adapter instance carries the same
`yt_views`, never its own view count. -/
theorem C10_views_constant :
    (∀ (env : YtEnv) (td : YtSongData) (t : TrackInfo),
        ytGetTrack env td = .ok t → t.yt_views = getYtViews env PyVal.builtinId) ∧
    (∀ (env : YtEnv) (td1 td2 : YtSongData) (t1 t2 : TrackInfo),
        ytGetTrack env td1 = .ok t1 → ytGetTrack env td2 = .ok t2 →
        t1.yt_views = t2.yt_views) := by
  constructor
  · intro env td t h
    exact (ytGetTrack_fields h).2.2
  · intro env td1 td2 t1 t2 h1 h2
    rw [(ytGetTrack_fields h1).2.2, (ytGetTrack_fields h2).2.2]

/-- C10 witness: two different songs mapped under an environment whose
`get_song` answers the builtin-`id` lookup with 7 views — both tracks
get 7. -/
theorem C10_witness :
    ytTrackOutA.yt_views = getYtViews ytEnvViews PyVal.builtinId ∧
    ytTrackOutA.yt_views = ytTrackOutB.yt_views :=
  ⟨C10_views_constant.1 ytEnvViews (ytSongDemo "a" "v1") ytTrackOutA rfl,
   C10_views_constant.2 ytEnvViews (ytSongDemo "a" "v1") (ytSongDemo "b" "v2")
     ytTrackOutA ytTrackOutB rfl rfl⟩
